import Mathlib

/-!
Verification development for the ignite_rust_example repository.

The repository holds two sequential client scripts against an external
Apache Ignite cluster:
* src/ignite_with_rest_api/src/main.rs - an HTTP REST client issuing ten
  requests (cache getOrCreate, two puts, two gets, CREATE TABLE, INSERT,
  SELECT, parameterized SELECT, cache destroy) and checking each response;
* src/src/main.rs - a binary-protocol client using the ignite_rs crate.

We embed the response-handling logic of each step of the REST script as a
pure function on an abstract HTTP response, and the whole script as a
deterministic run over an oracle assigning a response to each step.  JSON
bodies are modelled by an inductive `Json` type mirroring serde_json::Value
(numbers restricted to integers, which is all the script compares against).
-/

/-- JSON values as produced by serde_json, with integer numerics
(the script only ever reads integer fields). Objects keep field order. -/
inductive Json where
  | null
  | bool (b : Bool)
  | num (n : Int)
  | str (s : String)
  | arr (elems : List Json)
  | obj (fields : List (String × Json))
deriving Repr

/-- Field lookup on a JSON object (serde_json Map::get): `none` when the
value is not an object or lacks the key. -/
def Json.lookup : Json → String → Option Json
  | .obj fields, k => List.lookup k fields
  | _, _ => none

/-- serde_json's `Index<&str>` for `value["key"]`: yields `Null` when the
key is absent or the value is not an object. -/
def Json.index (j : Json) (k : String) : Json :=
  (j.lookup k).getD .null

/-- serde_json `Value::as_i64`: the number when it is an integer in i64
range, otherwise `none`. -/
def Json.asI64 : Json → Option Int
  | .num n => if -(2 ^ 63) ≤ n ∧ n < 2 ^ 63 then some n else none
  | _ => none

/-- serde_json `Value::as_str`. -/
def Json.asStr : Json → Option String
  | .str s => some s
  | _ => none

/-- serde_json `Value::as_array`. -/
def Json.asArray : Json → Option (List Json)
  | .arr elems => some elems
  | _ => none

/-- serde_json `Value::is_null`. -/
def Json.isNull : Json → Bool
  | .null => true
  | _ => false

/-- serde_json `Value::get(usize)`: array indexing, `none` out of range or
on a non-array. -/
def Json.atIdx : Json → Nat → Option Json
  | .arr elems, i => elems.get? i
  | _, _ => none

/-- The struct MyValue of both main.rs files: `{ id: i32, name: String }`. -/
structure MyValue where
  id : Int
  name : String
deriving Repr, DecidableEq

/-- serde Serialize for MyValue: the JSON object with fields id, name. -/
def encodeMyValue (v : MyValue) : Json :=
  .obj [("id", .num v.id), ("name", .str v.name)]

/-- serde_json::from_value::<MyValue>: succeeds exactly on an object with
an integer "id" in i32 range and a string "name" (extra fields ignored). -/
def decodeMyValue (j : Json) : Option MyValue :=
  match j with
  | .obj fields =>
    match (Json.obj fields).lookup "id", (Json.obj fields).lookup "name" with
    | some idJ, some nameJ =>
      match idJ.asI64, nameJ.asStr with
      | some n, some s =>
        if -(2 ^ 31) ≤ n ∧ n < 2 ^ 31 then some ⟨n, s⟩ else none
      | _, _ => none
    | _, _ => none
  | _ => none

/-- An HTTP response as the script observes it: the status code, and the
body as parsed JSON (`none` when the body is not valid JSON, in which case
`response.json()` fails). `response.text()` is modelled as always
readable. -/
structure HttpResponse where
  status : Nat
  body : Option Json

/-- reqwest `StatusCode::is_success`: 2xx. -/
def is2xx (status : Nat) : Bool := 200 ≤ status && status < 300

/-- The error taxonomy of spec section 7 as it manifests in the script's
abort paths (`return Err(...)` / `?` propagation). -/
inductive ErrKind where
  | transport
  | application
  | decoding
deriving Repr, DecidableEq

/-- What a step prints on its non-aborting paths. -/
inductive StepReport where
  | plain
  | gotValue (v : MyValue)
  | noValue
  | missingResponseField
  | unexpectedValue (v : Json)
  | sqlOk
  | selectRows (rows : List (Option Int × Option String))
  | noItems
  | destroyFailed
deriving Repr

/-- Row extraction in the SELECT result loops:
`item.get(0).and_then(as_i64)` and `item.get(1).and_then(as_str)`. -/
def decodeRow (item : Json) : Option Int × Option String :=
  ((item.atIdx 0).bind Json.asI64, (item.atIdx 1).bind Json.asStr)

/-- The admin / put steps: 2xx prints and continues, otherwise the script
aborts (`abortOnFail = true`, steps 1-3) or merely prints
(`abortOnFail = false`, the destroy step, lines 309-314). -/
def adminStep (r : HttpResponse) (abortOnFail : Bool) : Except ErrKind StepReport :=
  if is2xx r.status then .ok .plain
  else if abortOnFail then .error .transport
  else .ok .destroyFailed

/-- The two cache-get steps (lines 106-151). On 2xx the body is parsed
(`?` on parse failure); a present-and-null "response" field prints
"No value found"; a present non-null one is deserialized into MyValue for
key 1 (`strictDecode = true`, `?` on failure) or just printed for the
non-existent key 99; a missing "response" field only prints an error
message and the script continues. Non-2xx aborts. -/
def getStep (r : HttpResponse) (strictDecode : Bool) : Except ErrKind StepReport :=
  if is2xx r.status then
    match r.body with
    | none => .error .decoding
    | some b =>
      match b.lookup "response" with
      | some v =>
        if v.isNull then .ok .noValue
        else if strictDecode then
          match decodeMyValue v with
          | some mv => .ok (.gotValue mv)
          | none => .error .decoding
        else .ok (.unexpectedValue v)
      | none => .ok .missingResponseField
  else .error .transport

/-- The check `response_body["successStatus"].as_i64() == Some(0)`. -/
def sqlOkStatus (b : Json) : Bool :=
  match (b.index "successStatus").asI64 with
  | some n => n == 0
  | none => false

/-- `response_body["response"]["items"].as_array()`. -/
def selectItems (b : Json) : Option (List Json) :=
  ((b.index "response").index "items").asArray

/-- The four SQL steps (lines 172-294). Non-2xx aborts (transport); an
unparseable body aborts (`?` on json()); `successStatus` decoded as
`Some(0)` is success, anything else aborts (application). For SELECT
steps (`isSelect = true`) the items array is printed row by row when
present, and its absence prints "No items found" and continues. -/
def sqlStep (r : HttpResponse) (isSelect : Bool) : Except ErrKind StepReport :=
  if is2xx r.status then
    match r.body with
    | none => .error .decoding
    | some b =>
      if sqlOkStatus b then
        if isSelect then
          match selectItems b with
          | some items => .ok (.selectRows (items.map decodeRow))
          | none => .ok .noItems
        else .ok .sqlOk
      else .error .application
  else .error .transport

/-- Response handling of step `i` of the REST script, in request order:
0 getOrCreate, 1 put key 1, 2 put key 2, 3 get key 1, 4 get key 99,
5 CREATE TABLE, 6 INSERT, 7 SELECT, 8 parameterized SELECT, 9 destroy. -/
def stepHandler (i : Nat) (r : HttpResponse) : Except ErrKind StepReport :=
  match i with
  | 0 => adminStep r true
  | 1 => adminStep r true
  | 2 => adminStep r true
  | 3 => getStep r true
  | 4 => getStep r false
  | 5 => sqlStep r false
  | 6 => sqlStep r false
  | 7 => sqlStep r true
  | 8 => sqlStep r true
  | 9 => adminStep r false
  | _ => .ok .plain

/-- Outcome of a whole run: how many requests were issued, whether the
process exits with status zero (`main` returned Ok), and the aborting
step and error when the run aborted. -/
structure ScriptResult where
  issuedCount : Nat
  exitSuccess : Bool
  failure : Option (Nat × ErrKind)
deriving Repr

/-- Run steps `s, s+1, ...` for `fuel` more steps against the oracle,
stopping at the first aborting step. -/
def runFrom (oracle : Nat → HttpResponse) : Nat → Nat → ScriptResult
  | s, 0 => { issuedCount := s, exitSuccess := true, failure := none }
  | s, fuel + 1 =>
    match stepHandler s (oracle s) with
    | .ok _ => runFrom oracle (s + 1) fuel
    | .error e => { issuedCount := s + 1, exitSuccess := false, failure := some (s, e) }

/-- The whole REST script: the ten requests in program order. -/
def runScript (oracle : Nat → HttpResponse) : ScriptResult :=
  runFrom oracle 0 10

/-- The compiled-in REST endpoint (main.rs line 16). -/
def baseUrl : String := "http://127.00.1:8080/ignite"

/-- The compiled-in cache / table name (main.rs line 17). -/
def cacheName : String := "my_rest_cache"

/-- The CREATE TABLE text, built by format! interpolation of cacheName
(lines 157-160). -/
def createTableSql : String :=
  "CREATE TABLE " ++ cacheName ++
    " (id INT PRIMARY KEY, name VARCHAR) WITH \"template=REPLICATED\""

/-- The INSERT text (lines 188-191). -/
def insertSql : String := "INSERT INTO " ++ cacheName ++ " (id, name) VALUES (?, ?)"

/-- The SELECT text (line 218). -/
def selectSql : String := "SELECT id, name FROM " ++ cacheName

/-- The parameterized SELECT text (line 258). -/
def paramSelectSql : String := "SELECT id, name FROM " ++ cacheName ++ " WHERE id = ?"

/-- value1 (line 49). -/
def value1 : MyValue := ⟨1, "Data from Rust REST client!"⟩

/-- value2 (line 70). -/
def value2 : MyValue := ⟨2, "Another entry!"⟩

/-- One HTTP request of the script: target URL and JSON payload. -/
structure Request where
  url : String
  payload : Json

/-- Step 0: POST /cache/getOrCreate (lines 23-32). -/
def getOrCreateReq : Request :=
  ⟨baseUrl ++ "/cache/getOrCreate", .obj [("cacheName", .str cacheName)]⟩

/-- Step 1: POST /cache/put for key 1 (lines 46-59). -/
def putReq1 : Request :=
  ⟨baseUrl ++ "/cache/put",
    .obj [("cacheName", .str cacheName), ("key", .num 1), ("value", encodeMyValue value1)]⟩

/-- Step 2: POST /cache/put for key 2 (lines 69-80). -/
def putReq2 : Request :=
  ⟨baseUrl ++ "/cache/put",
    .obj [("cacheName", .str cacheName), ("key", .num 2), ("value", encodeMyValue value2)]⟩

/-- Step 3: POST /cache/get for key 1 (lines 93-104). -/
def getReq1 : Request :=
  ⟨baseUrl ++ "/cache/get", .obj [("cacheName", .str cacheName), ("key", .num 1)]⟩

/-- Step 4: POST /cache/get for the non-existent key 99 (lines 125-134). -/
def getReq99 : Request :=
  ⟨baseUrl ++ "/cache/get", .obj [("cacheName", .str cacheName), ("key", .num 99)]⟩

/-- Step 5: POST /sql with the CREATE TABLE payload (lines 161-170). -/
def createTableReq : Request :=
  ⟨baseUrl ++ "/sql",
    .obj [("schemaName", .str "PUBLIC"), ("query", .str createTableSql), ("pageSize", .num 100)]⟩

/-- Step 6: POST /sql with the INSERT payload; note there is no pageSize
field (lines 192-200). -/
def insertReq : Request :=
  ⟨baseUrl ++ "/sql",
    .obj [("schemaName", .str "PUBLIC"), ("query", .str insertSql),
      ("args", .arr [.num 101, .str "SQL Inserted Item 1"])]⟩

/-- Step 7: POST /sql with the SELECT payload (lines 219-228). -/
def selectReq : Request :=
  ⟨baseUrl ++ "/sql",
    .obj [("schemaName", .str "PUBLIC"), ("query", .str selectSql), ("pageSize", .num 100)]⟩

/-- Step 8: POST /sql with the parameterized SELECT payload (lines 259-269). -/
def paramSelectReq : Request :=
  ⟨baseUrl ++ "/sql",
    .obj [("schemaName", .str "PUBLIC"), ("query", .str paramSelectSql),
      ("pageSize", .num 100), ("args", .arr [.num 101])]⟩

/-- Step 9: POST /cache/destroy (lines 298-307). -/
def destroyReq : Request :=
  ⟨baseUrl ++ "/cache/destroy", .obj [("cacheName", .str cacheName)]⟩

/-- All ten requests, in the order the script issues them; request `i` is
handled by `stepHandler i`. -/
def scriptRequests : List Request :=
  [getOrCreateReq, putReq1, putReq2, getReq1, getReq99,
   createTableReq, insertReq, selectReq, paramSelectReq, destroyReq]

/-- The "query" field of a request's payload, "" when absent. -/
def queryOf (req : Request) : String :=
  match req.payload.lookup "query" with
  | some (.str s) => s
  | _ => ""

/-- The "args" field of a request's payload, when present as an array. -/
def argsOf (req : Request) : Option (List Json) :=
  match req.payload.lookup "args" with
  | some (.arr elems) => some elems
  | _ => none

/-- Whether a query text is a SELECT statement. -/
def isSelectText (s : String) : Bool := s.toList.take 6 == "SELECT".toList

/-- The number of positional placeholders in a statement. -/
def countPlaceholders (s : String) : Nat := s.toList.count '?'

/-- Modelled from the spec: the external Ignite cache (spec sections 4.3
and 8), absent from src/, as the sequence of puts applied to it; `put` is
an unconditional upsert and `get` observes the latest put for the key. -/
def IgniteCache : Type := List (Int × MyValue)

/-- Modelled from the spec: the empty cache, no keys put yet. -/
def cacheEmpty : IgniteCache := []

/-- Modelled from the spec: `put(cache, key, value)`, unconditional
upsert. -/
def cachePut (c : IgniteCache) (k : Int) (v : MyValue) : IgniteCache :=
  (k, v) :: c

/-- Modelled from the spec: `get(cache, key)`, the latest value put for
the key or an explicit absent result. -/
def cacheGet (c : IgniteCache) (k : Int) : Option MyValue :=
  (List.find? (fun p => p.1 == k) c).map (fun p => p.2)

/-- Modelled from the spec: the service returns SQL rows page by page and
pageSize bounds the rows per page; the script fetches the first page
only. -/
def firstPage (rows : List Json) (pageSize : Nat) : List Json :=
  rows.take pageSize

/-- Outcome of a get in the binary-protocol script (src/src/main.rs
lines 74-81): `.expect` panics on a client error, otherwise Some/None is
matched and printed. -/
inductive BinGetOutcome where
  | printedValue (v : MyValue)
  | printedNoValue
  | panicked (msg : String)
deriving Repr

/-- The binary-protocol script's handling of a `cache.get` result:
`Err` panics via expect, `Ok(Some v)` prints the value, `Ok(None)` prints
"no value found" and the script continues. -/
def binHandleGet (res : Except String (Option MyValue)) : BinGetOutcome :=
  match res with
  | .error e => .panicked e
  | .ok (some v) => .printedValue v
  | .ok none => .printedNoValue

/-- A well-formed successful SQL response body. -/
def okSqlBody : Json :=
  .obj [("successStatus", .num 0), ("response", .obj [("items", .arr [])])]

/-- A body claiming success but missing the expected "response" payload. -/
def malformedSqlBody : Json := .obj [("successStatus", .num 0)]

/-- An oracle under which every step receives a well-formed successful
response; the gets find no value (response null). -/
def goodOracle (n : Nat) : HttpResponse :=
  if n ≤ 2 || n == 9 then ⟨200, some (.obj [])⟩
  else if n ≤ 4 then ⟨200, some (.obj [("response", .null)])⟩
  else ⟨200, some okSqlBody⟩

/-- As goodOracle, except the destroy call fails with HTTP 500. -/
def destroyFailOracle (n : Nat) : HttpResponse :=
  if n == 9 then ⟨500, some (.obj [])⟩ else goodOracle n

/-- As goodOracle, except the SELECT response body is malformed: status 0
but no response payload. -/
def malformedSelectOracle (n : Nat) : HttpResponse :=
  if n == 7 then ⟨200, some malformedSqlBody⟩ else goodOracle n

/-- An oracle whose every response is an HTTP 500 with an unparseable
body. -/
def failAt0Oracle (_ : Nat) : HttpResponse := ⟨500, none⟩

/-- The script records a failure exactly when the aborting step's handler
errored; the abort is immediate (no later request issued) and the exit
status is non-zero. -/
theorem runFrom_failure_spec (oracle : Nat → HttpResponse) (fuel : Nat) :
    ∀ s i e, (runFrom oracle s fuel).failure = some (i, e) →
      (runFrom oracle s fuel).issuedCount = i + 1 ∧
      (runFrom oracle s fuel).exitSuccess = false ∧
      s ≤ i ∧ i < s + fuel ∧ stepHandler i (oracle i) = .error e := by
  induction fuel with
  | zero => intro s i e h; simp [runFrom] at h
  | succ fuel ih =>
    intro s i e h
    simp only [runFrom] at h ⊢
    cases hs : stepHandler s (oracle s) with
    | ok rep =>
      simp only [hs] at h ⊢
      obtain ⟨h1, h2, h3, h4, h5⟩ := ih (s + 1) i e h
      exact ⟨h1, h2, by omega, by omega, h5⟩
    | error e2 =>
      simp only [hs] at h ⊢
      simp only [Option.some.injEq, Prod.mk.injEq] at h
      obtain ⟨hi, he⟩ := h
      subst hi; subst he
      refine ⟨?_, ?_, ?_, ?_, ?_⟩ <;> first | trivial | omega

/-- The destroy step never aborts: both branches only print. -/
theorem stepHandler_destroy_ok (r : HttpResponse) :
    ∃ rep, stepHandler 9 r = .ok rep := by
  cases h : is2xx r.status <;> simp [stepHandler, adminStep, h]

/-- The script's check of successStatus holds exactly when the decoded
field equals 0. -/
theorem sqlOkStatus_iff (b : Json) :
    sqlOkStatus b = true ↔ (b.index "successStatus").asI64 = some 0 := by
  unfold sqlOkStatus
  cases h : (b.index "successStatus").asI64 with
  | none => simp
  | some n => simp

/-- A SQL step succeeds exactly when the HTTP status is 2xx, the body
parses, and the decoded successStatus is 0. -/
theorem sqlStep_ok_iff (r : HttpResponse) (sel : Bool) :
    (∃ rep, sqlStep r sel = .ok rep) ↔
      (is2xx r.status = true ∧ ∃ b, r.body = some b ∧ sqlOkStatus b = true) := by
  unfold sqlStep
  cases h2 : is2xx r.status with
  | false => simp
  | true =>
    cases hb : r.body with
    | none => simp
    | some b =>
      cases hs : sqlOkStatus b with
      | false => simp [hs]
      | true =>
        cases sel with
        | false => simp [hs]
        | true => cases hi : selectItems b <;> simp [hs, hi]

/-- As sqlStep_ok_iff, phrased through the decoded successStatus field. -/
theorem sqlStep_ok_iff_status (r : HttpResponse) (sel : Bool) :
    (∃ rep, sqlStep r sel = .ok rep) ↔
      (is2xx r.status = true ∧
        ∃ b, r.body = some b ∧ (b.index "successStatus").asI64 = some 0) := by
  rw [sqlStep_ok_iff]
  simp only [sqlOkStatus_iff]

/-- Claim C1 counterexample: under an oracle where only the destroy call
fails (HTTP 500, a TransportError), the script reports the failure but
still finishes and the program exits with status zero, contradicting the
claim that a failed cache-destroy call yields a failing exit status. -/
theorem c1_counterexample :
    is2xx (destroyFailOracle 9).status = false ∧
    stepHandler 9 (destroyFailOracle 9) = .ok .destroyFailed ∧
    (runScript destroyFailOracle).issuedCount = 10 ∧
    (runScript destroyFailOracle).exitSuccess = true ∧
    (runScript destroyFailOracle).failure = none :=
  ⟨rfl, rfl, rfl, rfl, rfl⟩

/-- Claim C1 (amended): any aborting failure — which can only arise at
steps 0-8 — issues no further request and terminates the program with a
non-zero exit status; but a missing "response" field in a get body only
prints a message and continues, and a failed cache-destroy only prints a
message and the program still exits with status zero. -/
theorem c1_failure_aborts_rest (oracle : Nat → HttpResponse) (i : Nat) (e : ErrKind)
    (h : (runScript oracle).failure = some (i, e)) :
    (runScript oracle).issuedCount = i + 1 ∧
    (runScript oracle).exitSuccess = false ∧
    stepHandler i (oracle i) = .error e ∧
    i ≤ 8 ∧
    stepHandler 3 ⟨200, some (.obj [])⟩ = .ok .missingResponseField ∧
    stepHandler 9 ⟨500, some (.obj [])⟩ = .ok .destroyFailed := by
  obtain ⟨h1, h2, h3, h4, h5⟩ := runFrom_failure_spec oracle 10 0 i e h
  refine ⟨h1, h2, h5, ?_, rfl, rfl⟩
  by_contra hgt
  have hi9 : i = 9 := by omega
  subst hi9
  obtain ⟨rep, hrep⟩ := stepHandler_destroy_ok (oracle 9)
  rw [hrep] at h5
  simp at h5

/-- Witness for c1_failure_aborts_rest: under the all-failing oracle the
run aborts at step 0. -/
theorem c1_failure_aborts_rest_witness :
    (runScript failAt0Oracle).issuedCount = 0 + 1 ∧
    (runScript failAt0Oracle).exitSuccess = false ∧
    stepHandler 0 (failAt0Oracle 0) = .error .transport ∧
    (0 : Nat) ≤ 8 ∧
    stepHandler 3 ⟨200, some (.obj [])⟩ = .ok .missingResponseField ∧
    stepHandler 9 ⟨500, some (.obj [])⟩ = .ok .destroyFailed :=
  c1_failure_aborts_rest failAt0Oracle 0 .transport rfl

/-- Claim C2 counterexample: a SELECT body with successStatus 0 but no
response payload is not reported as a DecodingError — the step reports
"no items" and the whole script still finishes successfully. -/
theorem c2_counterexample :
    stepHandler 7 ⟨200, some malformedSqlBody⟩ = .ok .noItems ∧
    (runScript malformedSelectOracle).failure = none ∧
    (runScript malformedSelectOracle).exitSuccess = true ∧
    (runScript malformedSelectOracle).issuedCount = 10 :=
  ⟨rfl, rfl, rfl, rfl⟩

/-- Claim C2 (amended): for the SELECT steps, a body with successStatus 0
but a missing response/items payload is treated as "no items found" and
the script continues without any error; an unparseable body does surface
as a DecodingError; a body whose successStatus does not decode to 0
aborts as an application failure. -/
theorem c2_malformed_select_handling (i : Nat) (hi : i = 7 ∨ i = 8) :
    stepHandler i ⟨200, some malformedSqlBody⟩ = .ok .noItems ∧
    stepHandler i ⟨200, none⟩ = .error .decoding ∧
    stepHandler i ⟨200, some (.obj [])⟩ = .error .application := by
  rcases hi with rfl | rfl <;> exact ⟨rfl, rfl, rfl⟩

/-- Witness for c2_malformed_select_handling at the first SELECT step. -/
theorem c2_malformed_select_handling_witness :
    ((7 : Nat) = 7 ∨ (7 : Nat) = 8) ∧
    (stepHandler 7 ⟨200, some malformedSqlBody⟩ = .ok .noItems ∧
     stepHandler 7 ⟨200, none⟩ = .error .decoding ∧
     stepHandler 7 ⟨200, some (.obj [])⟩ = .error .application) :=
  ⟨Or.inl rfl, c2_malformed_select_handling 7 (Or.inl rfl)⟩

/-- Claim C3: a get whose response is null is a successful "no value
found" outcome, distinct from every error kind, and the script continues
to the next operation (the goodOracle run, whose gets both return null,
issues all ten requests and never fails); the binary client likewise
prints rather than erring on Ok(None); and in the modelled cache a key
never put yields the absent result, not an error. -/
theorem c3_absent_is_success (c : IgniteCache) (k : Int)
    (h : k ∉ c.map Prod.fst) :
    stepHandler 3 ⟨200, some (.obj [("response", Json.null)])⟩ = .ok .noValue ∧
    stepHandler 4 ⟨200, some (.obj [("response", Json.null)])⟩ = .ok .noValue ∧
    (runScript goodOracle).issuedCount = 10 ∧
    (runScript goodOracle).failure = none ∧
    binHandleGet (.ok none) = .printedNoValue ∧
    cacheGet c k = none := by
  refine ⟨rfl, rfl, rfl, rfl, rfl, ?_⟩
  have hf : List.find? (fun p => p.1 == k) c = none := by
    rw [List.find?_eq_none]
    intro p hp
    simp only [beq_iff_eq]
    intro hk
    exact h (List.mem_map.mpr ⟨p, hp, hk⟩)
  simp [cacheGet, hf]

/-- Witness for c3_absent_is_success: key 99 was never put into the
one-entry cache. -/
theorem c3_absent_is_success_witness :
    ((99 : Int) ∉ (cachePut cacheEmpty 1 value1).map Prod.fst) ∧
    (stepHandler 3 ⟨200, some (.obj [("response", Json.null)])⟩ = .ok .noValue ∧
     stepHandler 4 ⟨200, some (.obj [("response", Json.null)])⟩ = .ok .noValue ∧
     (runScript goodOracle).issuedCount = 10 ∧
     (runScript goodOracle).failure = none ∧
     binHandleGet (.ok none) = .printedNoValue ∧
     cacheGet (cachePut cacheEmpty 1 value1) 99 = none) :=
  ⟨by decide, c3_absent_is_success (cachePut cacheEmpty 1 value1) 99 (by decide)⟩

/-- Claim C4: each SQL step (CREATE TABLE, INSERT, SELECT, parameterized
SELECT) reports success exactly when the HTTP status is 2xx and the
decoded successStatus field equals 0; row data never enters the success
condition. -/
theorem c4_sql_success_iff (i : Nat) (hi : i = 5 ∨ i = 6 ∨ i = 7 ∨ i = 8)
    (r : HttpResponse) :
    (∃ rep, stepHandler i r = .ok rep) ↔
      (is2xx r.status = true ∧
        ∃ b, r.body = some b ∧ (b.index "successStatus").asI64 = some 0) := by
  rcases hi with rfl | rfl | rfl | rfl <;> exact sqlStep_ok_iff_status r _

/-- Witness for c4_sql_success_iff at the CREATE TABLE step with a
well-formed successful response. -/
theorem c4_sql_success_iff_witness :
    ((5 : Nat) = 5 ∨ (5 : Nat) = 6 ∨ (5 : Nat) = 7 ∨ (5 : Nat) = 8) ∧
    ((∃ rep, stepHandler 5 (HttpResponse.mk 200 (some okSqlBody)) = .ok rep) ↔
      (is2xx (HttpResponse.mk 200 (some okSqlBody)).status = true ∧
        ∃ b, (HttpResponse.mk 200 (some okSqlBody)).body = some b ∧
          (b.index "successStatus").asI64 = some 0)) :=
  ⟨Or.inl rfl, c4_sql_success_iff 5 (Or.inl rfl) (HttpResponse.mk 200 (some okSqlBody))⟩

/-- Claim C5: every SELECT request the script constructs carries a
pageSize field of value 100; the script issues exactly one request per
SELECT statement (only the first page); and the modelled page mechanism
bounds the rows per page by pageSize. -/
theorem c5_select_pagesize (req : Request) (hmem : req ∈ scriptRequests)
    (hsel : isSelectText (queryOf req) = true) :
    req.payload.lookup "pageSize" = some (Json.num 100) ∧
    scriptRequests.countP (fun r => queryOf r == queryOf req) = 1 ∧
    ∀ rows pageSize, (firstPage rows pageSize).length ≤ pageSize := by
  have bound : ∀ rows pageSize, (firstPage rows pageSize).length ≤ pageSize := by
    intro rows ps
    simp [firstPage, List.length_take]
  fin_cases hmem <;>
    first
      | exact absurd hsel (by decide)
      | exact ⟨rfl, by decide, bound⟩

/-- Witness for c5_select_pagesize at the plain SELECT request. -/
theorem c5_select_pagesize_witness :
    selectReq ∈ scriptRequests ∧ isSelectText (queryOf selectReq) = true ∧
    (selectReq.payload.lookup "pageSize" = some (Json.num 100) ∧
     scriptRequests.countP (fun r => queryOf r == queryOf selectReq) = 1 ∧
     ∀ rows pageSize, (firstPage rows pageSize).length ≤ pageSize) := by
  have hmem : selectReq ∈ scriptRequests := by simp [scriptRequests]
  exact ⟨hmem, by decide, c5_select_pagesize selectReq hmem (by decide)⟩

/-- Claim C6: every request the script constructs has exactly one args
entry per positional placeholder of its statement (requests without args
have placeholder-free statements), and the two parameterized requests
carry their argument lists in statement order. -/
theorem c6_args_positional (req : Request) (hmem : req ∈ scriptRequests) :
    countPlaceholders (queryOf req) = ((argsOf req).getD []).length ∧
    argsOf insertReq = some [Json.num 101, Json.str "SQL Inserted Item 1"] ∧
    argsOf paramSelectReq = some [Json.num 101] := by
  refine ⟨?_, rfl, rfl⟩
  fin_cases hmem <;> decide

/-- Witness for c6_args_positional at the INSERT request. -/
theorem c6_args_positional_witness :
    insertReq ∈ scriptRequests ∧
    (countPlaceholders (queryOf insertReq) = ((argsOf insertReq).getD []).length ∧
     argsOf insertReq = some [Json.num 101, Json.str "SQL Inserted Item 1"] ∧
     argsOf paramSelectReq = some [Json.num 101]) := by
  have hmem : insertReq ∈ scriptRequests := by simp [scriptRequests]
  exact ⟨hmem, c6_args_positional insertReq hmem⟩

/-- Claim C7: each SQL query text equals its fixed template with the
compiled-in cache name spliced directly into the statement (shown both
against the template and fully spliced), while the value parameters go
through the positional args arrays, not the query text. -/
theorem c7_identifier_interpolation :
    cacheName = "my_rest_cache" ∧
    queryOf createTableReq =
      "CREATE TABLE " ++ cacheName ++
        " (id INT PRIMARY KEY, name VARCHAR) WITH \"template=REPLICATED\"" ∧
    queryOf insertReq = "INSERT INTO " ++ cacheName ++ " (id, name) VALUES (?, ?)" ∧
    queryOf selectReq = "SELECT id, name FROM " ++ cacheName ∧
    queryOf paramSelectReq = "SELECT id, name FROM " ++ cacheName ++ " WHERE id = ?" ∧
    queryOf createTableReq =
      "CREATE TABLE my_rest_cache (id INT PRIMARY KEY, name VARCHAR) WITH \"template=REPLICATED\"" ∧
    queryOf insertReq = "INSERT INTO my_rest_cache (id, name) VALUES (?, ?)" ∧
    queryOf selectReq = "SELECT id, name FROM my_rest_cache" ∧
    queryOf paramSelectReq = "SELECT id, name FROM my_rest_cache WHERE id = ?" ∧
    argsOf insertReq = some [Json.num 101, Json.str "SQL Inserted Item 1"] ∧
    argsOf paramSelectReq = some [Json.num 101] := by
  refine ⟨rfl, rfl, rfl, rfl, rfl, ?_, ?_, ?_, ?_, rfl, rfl⟩ <;> decide

/-- Claim C8: a put followed by a get on the same key, with no
intervening operation, returns the value just put (round-trip through
the modelled cache). -/
theorem c8_put_get_roundtrip (c : IgniteCache) (k : Int) (v : MyValue) :
    cacheGet (cachePut c k v) k = some v := by
  unfold cacheGet cachePut
  rw [List.find?_cons_of_pos _ (by simp)]
  rfl

/-- Witness for c8_put_get_roundtrip at a concrete cache, key and value. -/
theorem c8_put_get_roundtrip_witness :
    cacheGet (cachePut cacheEmpty 5 value2) 5 = some value2 :=
  c8_put_get_roundtrip cacheEmpty 5 value2

/-- Claim C9: the compiled-in base endpoint is the literal
"http://127.00.1:8080/ignite", whose host "127.00.1" differs from the
conventional loopback "127.0.0.1", and every one of the script's ten
request URLs is the base endpoint followed by one of the five REST
paths. -/
theorem c9_endpoint_constant :
    baseUrl = "http://127.00.1:8080/ignite" ∧
    (("127.00.1" == "127.0.0.1") = false) ∧
    scriptRequests.map (fun r => r.url) =
      [baseUrl ++ "/cache/getOrCreate", baseUrl ++ "/cache/put",
       baseUrl ++ "/cache/put", baseUrl ++ "/cache/get", baseUrl ++ "/cache/get",
       baseUrl ++ "/sql", baseUrl ++ "/sql", baseUrl ++ "/sql", baseUrl ++ "/sql",
       baseUrl ++ "/cache/destroy"] :=
  ⟨rfl, by decide, rfl⟩

/-- Claim C10: the INSERT request's payload has no pageSize field at all,
while the CREATE TABLE request and both SELECT requests each carry
pageSize 100. -/
theorem c10_insert_omits_pagesize :
    insertReq.payload.lookup "pageSize" = none ∧
    createTableReq.payload.lookup "pageSize" = some (Json.num 100) ∧
    selectReq.payload.lookup "pageSize" = some (Json.num 100) ∧
    paramSelectReq.payload.lookup "pageSize" = some (Json.num 100) :=
  ⟨rfl, rfl, rfl, rfl⟩
